import Mathlib

/-
Verification development for the firec VM lifecycle library.

The definitions below are a shallow embedding of the Rust sources under
src/: the configuration data model and its layered builders
(src/config/mod.rs, src/config/jailer.rs, src/config/drive.rs,
src/config/machine.rs, src/config/network.rs, src/config/vsock.rs), the
workspace materialization performed by Machine::create, and the start /
force_shutdown lifecycle logic of src/machine.rs.  External effects
(process spawning, the process table, the HTTP transport and the
filesystem) are represented by explicit oracles and state values, so that
every operation is a total executable function of its inputs.
-/

namespace Firec

/-
Paths.  A Rust std Path is modelled as a flag saying whether the path is
absolute plus its list of normal components (firec never builds paths
with "." components; ".." may occur as a last component supplied by the
caller, which is exactly the case where Path::file_name returns None).
-/

/-- Model of a filesystem path: absoluteness flag plus components. -/
structure RPath where
  absolute : Bool
  comps : List String
deriving DecidableEq, Repr

/-- Model of Rust Path::join: an absolute argument replaces the receiver,
a relative argument is appended. -/
def RPath.join (p q : RPath) : RPath :=
  if q.absolute then q else RPath.mk p.absolute (p.comps ++ q.comps)

/-- Model of Rust Path::file_name: the final component, unless the path is
empty or terminates in a parent-directory component. -/
def RPath.fileName (p : RPath) : Option String :=
  match p.comps.getLast? with
  | none => none
  | some c => if c = ".." then none else some c

/-- Model of Rust Path::parent: drop the last component; None for a path
with no components (such as the root path). -/
def RPath.parent (p : RPath) : Option RPath :=
  match p.comps with
  | [] => none
  | _ :: _ => some (RPath.mk p.absolute p.comps.dropLast)

/-- Model of path.strip_prefix("/").unwrap_or(path): an absolute path
becomes relative with the same components, a relative path is returned
unchanged. -/
def RPath.strip_root (p : RPath) : RPath :=
  if p.absolute then RPath.mk false p.comps else p

/-- Single relative path component, as produced by joining one filename. -/
def rel1 (s : String) : RPath := RPath.mk false [s]

/-- Error taxonomy of src/error.rs.  Payloads that the claims never
inspect (io error kinds, hyper/http/json details) are elided. -/
inductive Error where
  | IoError
  | Hyper
  | Http
  | Json
  | InvalidJailerExecPath
  | InvalidInitrdPath
  | InvalidSocketPath
  | InvalidDrivePath
  | InvalidChrootBasePath
  | FirecrackerAPIError (status : Nat) (body : Option String)
  | ProcessNotStarted
  | ProcessNotRunning (pid : Nat)
  | ProcessNotKilled (pid : Nat)
  | ProcessExitedImmediatelly (exit_status : Int)
  | JailerStartTimedOut
  | FailedToStart
  | ProcessAlreadyRunning
deriving DecidableEq, Repr

/-- VM state from src/machine.rs. -/
inductive MachineState where
  | SHUTOFF
  | RUNNING
deriving DecidableEq, Repr

/-- Drive configuration from src/config/drive.rs. -/
structure Drive where
  drive_id : String
  is_read_only : Bool
  is_root_device : Bool
  part_uuid : Option String
  src_path : RPath
deriving DecidableEq, Repr

/-- Network interface from src/config/network.rs. -/
structure Interface where
  host_if_name : String
  vm_if_name : String
  vm_mac_address : Option String
deriving DecidableEq, Repr

/-- VSock configuration from src/config/vsock.rs. -/
structure VSock where
  guest_cid : Nat
  uds_path : RPath
deriving DecidableEq, Repr

/-- Machine (resources) configuration from src/config/machine.rs. -/
structure MachineCfg where
  smt : Bool
  track_dirty_pages : Bool
  mem_size_mib : Int
  vcpu_count : Nat
  cpu_template : Option String
deriving DecidableEq, Repr

/-- Default machine configuration (Machine::default in the source). -/
def machineDefault : MachineCfg :=
  MachineCfg.mk false false 1024 1 none

/-- Jailer launch mode from src/config/jailer.rs.  The Attached stdio
handles only affect how the child process inherits file descriptors and
are elided. -/
inductive JailerMode where
  | attached
  | daemon
  | tmux (session_name : Option String)
deriving DecidableEq, Repr

/-- Jailer configuration from src/config/jailer.rs. -/
structure Jailer where
  gid : Nat
  uid : Nat
  numa_node : Option Int
  exec_file : RPath
  jailer_binary : RPath
  chroot_base_dir : RPath
  workspace_dir : RPath
  mode : JailerMode
deriving DecidableEq, Repr

/-- VMM configuration from src/config/mod.rs.  The vm_id is kept as its
string form (the Uuid stringification, which never contains a path
separator).  The vsock_cfg field is referenced by machine.rs
(config.vsock_cfg()) but its declaration is not part of the sources under
src/; it is modelled from the spec as an optional VSock record. -/
structure Config where
  socket_path : RPath
  log_path : Option RPath
  log_fifo : Option RPath
  metrics_path : Option RPath
  metrics_fifo : Option RPath
  jailer_workspace_dir : RPath
  src_kernel_image_path : RPath
  src_initrd_path : Option RPath
  kernel_args : Option String
  drives : List Drive
  machine_cfg : MachineCfg
  jailer_cfg : Option Jailer
  vm_id : String
  net_ns : Option String
  network_interfaces : List Interface
  vsock_cfg : Option VSock
deriving DecidableEq, Repr

/-- Boot source payload from src/config/mod.rs. -/
structure BootSrc where
  kernel_image_path : RPath
  boot_args : Option String
  initrd_path : Option RPath
deriving DecidableEq, Repr

/-
Config derived-path accessors (src/config/mod.rs).
-/

/-- The host-side socket path: the stored workspace dir joined with the
socket path stripped of its leading slash (Config::host_socket_path). -/
def Config.host_socket_path (c : Config) : RPath :=
  c.jailer_workspace_dir.join c.socket_path.strip_root

/-- The kernel image path inside the chroot (Config::kernel_image_path);
the filename "kernel" is the hardcoded KERNEL_IMAGE_FILENAME. -/
def Config.kernel_image_path (c : Config) : RPath :=
  c.jailer_workspace_dir.join (rel1 "kernel")

/-- The initrd path inside the chroot (Config::initrd_path). -/
def Config.initrd_path (c : Config) : Except Error (Option RPath) :=
  match c.src_initrd_path with
  | none => Except.ok none
  | some s =>
    match s.fileName with
    | none => Except.error Error.InvalidInitrdPath
    | some f => Except.ok (some (c.jailer_workspace_dir.join (rel1 f)))

/-- The boot-source payload (Config::boot_source): guest-relative kernel
path "/kernel" and guest-relative initrd basename. -/
def Config.boot_source (c : Config) : Except Error BootSrc :=
  match c.src_initrd_path with
  | none => Except.ok (BootSrc.mk (RPath.mk true ["kernel"]) c.kernel_args none)
  | some s =>
    match s.fileName with
    | none => Except.error Error.InvalidInitrdPath
    | some f =>
      Except.ok (BootSrc.mk (RPath.mk true ["kernel"]) c.kernel_args
        (some (RPath.mk true [f])))

/-
Builders.  The top-level Builder is a newtype over Config in the source;
its state is modelled directly as a Config value.  Nested builders carry
the parent builder state plus the record under construction.
-/

/-- Initial builder state (Config::builder).  The randomly generated
vm_id is passed explicitly as fresh_id. -/
def builderInit (src_kernel_image_path : RPath) (fresh_id : String) : Config :=
  Config.mk
    (RPath.mk true ["run", "firecracker.socket"])
    none none none none
    (RPath.mk true ["srv", "jailer", "firecracker", "root"])
    src_kernel_image_path
    none
    none
    []
    machineDefault
    none
    fresh_id
    none
    []
    none

/-- Builder::socket_path. -/
def Builder.socket_path (p : RPath) (b : Config) : Config :=
  { b with socket_path := p }

/-- Builder::vm_id. -/
def Builder.vm_id (v : String) (b : Config) : Config :=
  { b with vm_id := v }

/-- Builder::initrd_path. -/
def Builder.initrd_path (p : Option RPath) (b : Config) : Config :=
  { b with src_initrd_path := p }

/-- Builder::kernel_args. -/
def Builder.kernel_args (a : Option String) (b : Config) : Config :=
  { b with kernel_args := a }

/-- Builder::add_network_interface: pushes the interface at the end. -/
def Builder.add_network_interface (i : Interface) (b : Config) : Config :=
  { b with network_interfaces := b.network_interfaces ++ [i] }

/-- Setter for the vsock configuration.  Modelled from the spec: the
vsock field is consumed by machine.rs but its builder hook is not among
the sources under src/; the spec lists vsock as an optional Config
field. -/
def Builder.vsock (v : Option VSock) (b : Config) : Config :=
  { b with vsock_cfg := v }

/-- Drive sub-builder state (src/config/drive.rs). -/
structure DriveBuilder where
  config_builder : Config
  drive : Drive
deriving DecidableEq, Repr

/-- Builder::add_drive: opens a drive sub-builder with default flags. -/
def Builder.add_drive (drive_id : String) (src : RPath) (b : Config) : DriveBuilder :=
  DriveBuilder.mk b (Drive.mk drive_id false false none src)

/-- DriveBuilder::is_read_only. -/
def DriveBuilder.is_read_only (v : Bool) (db : DriveBuilder) : DriveBuilder :=
  { db with drive := { db.drive with is_read_only := v } }

/-- DriveBuilder::is_root_device. -/
def DriveBuilder.is_root_device (v : Bool) (db : DriveBuilder) : DriveBuilder :=
  { db with drive := { db.drive with is_root_device := v } }

/-- DriveBuilder::part_uuid. -/
def DriveBuilder.part_uuid (u : Option String) (db : DriveBuilder) : DriveBuilder :=
  { db with drive := { db.drive with part_uuid := u } }

/-- DriveBuilder::build: pushes the drive and returns the parent builder.
No validation of any kind is performed here. -/
def DriveBuilder.build (db : DriveBuilder) : Config :=
  { db.config_builder with drives := db.config_builder.drives ++ [db.drive] }

/-- Jailer sub-builder state (src/config/jailer.rs). -/
structure JailerBuilder where
  config_builder : Config
  jailer : Jailer
deriving DecidableEq, Repr

/-- Builder::jailer_cfg: opens the jailer sub-builder with its defaults.
The effective uid/gid of the host process are passed explicitly. -/
def Builder.jailer_cfg (euid egid : Nat) (b : Config) : JailerBuilder :=
  JailerBuilder.mk b
    (Jailer.mk egid euid none
      (RPath.mk true ["usr", "bin", "firecracker"])
      (RPath.mk false ["jailer"])
      (RPath.mk true ["srv", "jailer"])
      (RPath.mk true ["srv", "jailer", "firecracker", "root"])
      JailerMode.attached)

/-- JailerBuilder::uid. -/
def JailerBuilder.uid (v : Nat) (jb : JailerBuilder) : JailerBuilder :=
  { jb with jailer := { jb.jailer with uid := v } }

/-- JailerBuilder::gid. -/
def JailerBuilder.gid (v : Nat) (jb : JailerBuilder) : JailerBuilder :=
  { jb with jailer := { jb.jailer with gid := v } }

/-- JailerBuilder::exec_file. -/
def JailerBuilder.exec_file (p : RPath) (jb : JailerBuilder) : JailerBuilder :=
  { jb with jailer := { jb.jailer with exec_file := p } }

/-- JailerBuilder::chroot_base_dir. -/
def JailerBuilder.chroot_base_dir (p : RPath) (jb : JailerBuilder) : JailerBuilder :=
  { jb with jailer := { jb.jailer with chroot_base_dir := p } }

/-- JailerBuilder::mode. -/
def JailerBuilder.mode (m : JailerMode) (jb : JailerBuilder) : JailerBuilder :=
  { jb with jailer := { jb.jailer with mode := m } }

/-- JailerBuilder::build: computes the jailer workspace dir from the
chroot base, the exec-file basename and the CURRENT vm_id of the parent
builder, stores the jailer in the parent and returns it.  The source
panics (expect) when exec_file has no filename, modelled as none. -/
def JailerBuilder.build (jb : JailerBuilder) : Option Config :=
  match jb.jailer.exec_file.fileName with
  | none => none
  | some f =>
    some { jb.config_builder with
      jailer_cfg := some { jb.jailer with
        workspace_dir :=
          ((jb.jailer.chroot_base_dir.join (rel1 f)).join
            (rel1 jb.config_builder.vm_id)).join (rel1 "root") } }

/-- Builder::build: recomputes the Config jailer_workspace_dir from the
jailer chroot base, the exec-file basename and the current vm_id, and
freezes the Config.  The source panics (expect) when no jailer was
configured, modelled as none; an exec_file without filename yields
InvalidJailerExecPath.  No other validation is performed. -/
def Builder.build (b : Config) : Option (Except Error Config) :=
  match b.jailer_cfg with
  | none => none
  | some j =>
    match j.exec_file.fileName with
    | none => some (Except.error Error.InvalidJailerExecPath)
    | some f =>
      some (Except.ok { b with
        jailer_workspace_dir :=
          ((j.chroot_base_dir.join (rel1 f)).join (rel1 b.vm_id)).join
            (rel1 "root") })

/-- Workspace directory used by Machine::create for the drive copies and
the initial directory creation.  Modelled from the spec: machine.rs reads
it through config.jailer().workspace_dir(), and the accessor jailer() is
not among the sources under src/; per the spec it exposes the stored
Jailer record, so this returns the Jailer workspace_dir field. -/
def createWorkspaceDir (c : Config) : Option RPath :=
  c.jailer_cfg.map Jailer.workspace_dir

/-
Filesystem model and Machine::create (src/machine.rs lines 48-137).
The filesystem is a set of existing directories plus an association list
of regular files with their byte content (content abstracted as String).
-/

/-- Filesystem state: directories known to exist and files with content. -/
structure FS where
  dirs : List RPath
  files : List (RPath × String)
deriving DecidableEq, Repr

/-- Lookup of a file content by path. -/
def findFile : List (RPath × String) → RPath → Option String
  | [], _ => none
  | (q, c) :: rest, p => if q = p then some c else findFile rest p

/-- Existence test for a file. -/
def FS.hasFile (fs : FS) (p : RPath) : Bool :=
  (findFile fs.files p).isSome

/-- Model of DirBuilder::new().recursive(true).create(d): succeeds whether
or not the directory exists, and records the directory. -/
def ensureDir (d : RPath) (fs : FS) : FS :=
  if d ∈ fs.dirs then fs else { fs with dirs := d :: fs.dirs }

/-- Skip-if-exists copy step of Machine::create: when dest already exists
the copy is skipped; otherwise the source content is copied (a missing
source is an io error, as tokio fs copy would report). -/
def copyIfAbsent (src dest : RPath) (fs : FS) : Except Error FS :=
  if fs.hasFile dest then Except.ok fs
  else
    match findFile fs.files src with
    | none => Except.error Error.IoError
    | some content => Except.ok { fs with files := (dest, content) :: fs.files }

/-- Initrd copy step of Machine::create: skipped when no initrd is
configured; InvalidInitrdPath when the source has no filename. -/
def copyInitrd (c : Config) (fs : FS) : Except Error FS :=
  match c.src_initrd_path with
  | none => Except.ok fs
  | some s =>
    match s.fileName with
    | none => Except.error Error.InvalidInitrdPath
    | some f => copyIfAbsent s (c.jailer_workspace_dir.join (rel1 f)) fs

/-- Drive copy loop of Machine::create: each drive is copied (skip if the
destination exists) into ws under its source basename; a drive source
without filename is InvalidDrivePath. -/
def copyDrives (ws : RPath) : List Drive → FS → Except Error FS
  | [], fs => Except.ok fs
  | d :: ds, fs =>
    match d.src_path.fileName with
    | none => Except.error Error.InvalidDrivePath
    | some f =>
      match copyIfAbsent d.src_path (ws.join (rel1 f)) fs with
      | Except.error e => Except.error e
      | Except.ok fs2 => copyDrives ws ds fs2

/-- Socket parent-directory creation step of Machine::create. -/
def ensureSocketDir (c : Config) (fs : FS) : FS :=
  match c.host_socket_path.parent with
  | some d => ensureDir d fs
  | none => fs

/-- Body of Machine::create once the jailer workspace dir is resolved:
create the workspace dir, copy kernel (to Config::kernel_image_path),
initrd, and drives (into ws), then ensure the socket parent dir. -/
def createSteps (c : Config) (ws : RPath) (fs : FS) : Except Error FS :=
  match copyIfAbsent c.src_kernel_image_path c.kernel_image_path (ensureDir ws fs) with
  | Except.error e => Except.error e
  | Except.ok fsA =>
    match copyInitrd c fsA with
    | Except.error e => Except.error e
    | Except.ok fsB =>
      match copyDrives ws c.drives fsB with
      | Except.error e => Except.error e
      | Except.ok fsC => Except.ok (ensureSocketDir c fsC)

/-- Machine::create effect on the filesystem.  The outer Option is the
panic (expect) on a missing jailer configuration. -/
def createFS (c : Config) (fs : FS) : Option (Except Error FS) :=
  match createWorkspaceDir c with
  | none => none
  | some ws => some (createSteps c ws fs)

/-
REST sequencing (Machine::setup_vm and friends) and start
(src/machine.rs lines 157-269 and 394-570).
-/

/-- Action payload of PUT /actions (machine.rs). -/
inductive Action where
  | instanceStart
  | sendCtrlAltDel
  | flushMetrics
deriving DecidableEq, Repr

/-- One REST request as issued by the sequencer, with the payload details
the source serializes.  The drive payload carries the rewritten drive
object whose src_path has been replaced by the guest basename. -/
inductive RestReq where
  | machineConfig (m : MachineCfg)
  | bootSource (b : BootSrc)
  | drive (drive_id : String) (d : Drive)
  | netIface (iface_id : String) (host_dev_name : String)
  | vsockReq (v : VSock)
  | action (a : Action)
deriving DecidableEq, Repr

/-- URL path of a REST request. -/
def reqPath : RestReq → String
  | RestReq.machineConfig _ => "/machine-config"
  | RestReq.bootSource _ => "/boot-source"
  | RestReq.drive id _ => "/drives/" ++ id
  | RestReq.netIface ifid _ => "/network-interfaces/" ++ ifid
  | RestReq.vsockReq _ => "/vsock"
  | RestReq.action _ => "/actions"

/-- Response of the mock/real Firecracker API to one request. -/
structure RestResp where
  status : Nat
  body : Option String
deriving DecidableEq, Repr

/-- Model of StatusCode::is_success: a 2xx status. -/
def isSuccessCode (s : Nat) : Bool :=
  200 ≤ s && s < 300

/-- Model of Machine::send_request: a 2xx response extends the trace with
the request, any other response is a FirecrackerAPIError carrying the
status and the response body. -/
def sendOne (rest : RestReq → RestResp) (t : List RestReq) (req : RestReq) :
    Except Error (List RestReq) :=
  let r := rest req
  if isSuccessCode r.status then Except.ok (t ++ [req])
  else Except.error (Error.FirecrackerAPIError r.status r.body)

/-- Model of Machine::setup_drives: for each drive in order, the payload
src_path is rewritten to the basename; a missing basename aborts with
InvalidDrivePath before any request for that drive is sent. -/
def sendDrives (rest : RestReq → RestResp) (t : List RestReq) :
    List Drive → Except Error (List RestReq)
  | [] => Except.ok t
  | d :: ds =>
    match d.src_path.fileName with
    | none => Except.error Error.InvalidDrivePath
    | some f =>
      match sendOne rest t (RestReq.drive d.drive_id { d with src_path := rel1 f }) with
      | Except.error e => Except.error e
      | Except.ok t2 => sendDrives rest t2 ds

/-- Model of Machine::setup_vm: machine-config, boot-source, drives, the
FIRST network interface (an unguarded index — the outer none is the panic
on an empty interface list, reached only after the three preceding steps
succeeded), then vsock when configured.  The ok value is the ordered
request trace. -/
def runSetup (c : Config) (rest : RestReq → RestResp) :
    Option (Except Error (List RestReq)) :=
  match sendOne rest [] (RestReq.machineConfig c.machine_cfg) with
  | Except.error e => some (Except.error e)
  | Except.ok t1 =>
    match c.boot_source with
    | Except.error e => some (Except.error e)
    | Except.ok bs =>
      match sendOne rest t1 (RestReq.bootSource bs) with
      | Except.error e => some (Except.error e)
      | Except.ok t2 =>
        match sendDrives rest t2 c.drives with
        | Except.error e => some (Except.error e)
        | Except.ok t3 =>
          match c.network_interfaces with
          | [] => none
          | i :: _ =>
            match sendOne rest t3 (RestReq.netIface i.vm_if_name i.host_if_name) with
            | Except.error e => some (Except.error e)
            | Except.ok t4 =>
              match c.vsock_cfg with
              | none => some (Except.ok t4)
              | some v => some (sendOne rest t4 (RestReq.vsockReq v))

/-- Model of the setup_vm().and_then(send_action(InstanceStart)) chain of
Machine::start. -/
def setupAndBoot (c : Config) (rest : RestReq → RestResp) :
    Option (Except Error (List RestReq)) :=
  match runSetup c rest with
  | none => none
  | some (Except.error e) => some (Except.error e)
  | some (Except.ok t) => some (sendOne rest t (RestReq.action Action.instanceStart))

/-- Outcome of one GET /version readiness probe: either the request
construction / transport fails with an error, or a response status is
received. -/
inductive ProbeOutcome where
  | err (e : Error)
  | status (code : Nat)
deriving DecidableEq, Repr

/-- Readiness-poll loop of Machine::wait_for_jailer.  The probe oracle
gives the outcome of the n-th request.  A transport or request-build
error is propagated immediately by the source (request()? and .await?);
a non-2xx response retries after a 100 ms sleep while elapsed < 10 s.
The fuel argument counts the remaining sleeps: probe n retries exactly
when n * 100 ms < 10 s, so the fuel starts at 100. -/
def waitLoop (probe : Nat → ProbeOutcome) : Nat → Nat → Except Error Unit
  | fuel, n =>
    match probe n with
    | ProbeOutcome.err e => Except.error e
    | ProbeOutcome.status s =>
      if isSuccessCode s then Except.ok ()
      else
        match fuel with
        | 0 => Except.error Error.JailerStartTimedOut
        | fuel2 + 1 => waitLoop probe fuel2 (n + 1)

/-- Socket-readiness wait of Machine::wait_for_jailer with the 10 s
timeout and 100 ms poll interval of the source. -/
def waitForVersion (probe : Nat → ProbeOutcome) : Except Error Unit :=
  waitLoop probe 100 0

/-- Model of Machine::state: RUNNING exactly when a pid is tracked and
the process table still knows it. -/
def stateOf (alive : Nat → Bool) (pid : Option Nat) : MachineState :=
  match pid with
  | some p => if alive p then MachineState.RUNNING else MachineState.SHUTOFF
  | none => MachineState.SHUTOFF

/-- Model of Machine::force_shutdown.  Inputs are the mode, the process
table (alive), whether a kill signal would be accepted (killOk), whether
the tmux kill-session command spawns and waits successfully (tmuxOk), and
the tracked pid.  Output is the result together with the pid field
afterwards: the source clears the pid only after a fully successful kill
path. -/
def forceShutdown (mode : JailerMode) (alive killOk : Nat → Bool)
    (tmuxOk : Bool) (pid : Option Nat) : Except Error Unit × Option Nat :=
  match pid with
  | none => (Except.error Error.ProcessNotStarted, none)
  | some p =>
    match mode with
    | JailerMode.attached | JailerMode.daemon =>
      if alive p then
        if killOk p then (Except.ok (), none)
        else (Except.error (Error.ProcessNotKilled p), some p)
      else (Except.error (Error.ProcessNotRunning p), some p)
    | JailerMode.tmux _ =>
      if tmuxOk then (Except.ok (), none)
      else (Except.error Error.IoError, some p)

/-- Environment of one Machine::start run: outcomes of every external
interaction.  spawn is the result of Command::spawn together with
child.id() (none models a child with no id, reported as exited
immediately with exitStatus); probe drives the readiness poll; matching
is the list of process-table pids whose name matches the jailer exec file
and whose argv contains the vm id; rest answers each REST request; alive,
killOk and tmuxOk drive force_shutdown and state. -/
structure StartEnv where
  spawn : Except Error (Option Nat)
  exitStatus : Int
  probe : Nat → ProbeOutcome
  matching : List Nat
  rest : RestReq → RestResp
  alive : Nat → Bool
  killOk : Nat → Bool
  tmuxOk : Bool

/-- Decidable equality for Except values with decidable components. -/
instance exceptDecEq {e a : Type} [DecidableEq e] [DecidableEq a] :
    DecidableEq (Except e a) := fun x y =>
  match x, y with
  | Except.error u, Except.error v =>
    if h : u = v then isTrue (by rw [h]) else isFalse (by simp [h])
  | Except.ok u, Except.ok v =>
    if h : u = v then isTrue (by rw [h]) else isFalse (by simp [h])
  | Except.error _, Except.ok _ => isFalse (by simp)
  | Except.ok _, Except.error _ => isFalse (by simp)

/-- Observable outcome of Machine::start: the returned result, the pid
field afterwards, whether force_shutdown was invoked, and the trace of
REST configuration/boot requests of a successful run. -/
structure StartResult where
  res : Except Error Unit
  pid : Option Nat
  fsdCalled : Bool
  trace : List RestReq
deriving DecidableEq, Repr

/-- Model of Machine::start.  The outer Option is a panic: the expect on
a missing jailer configuration, or the unguarded network_interfaces[0]
index inside setup_vm.  Pre-start cleanup (socket / vsock / dev removal)
always succeeds in this model; argv construction errors
(non-representable paths) cannot arise since paths are modelled as
strings.  On a setup or boot error the source force-shuts-down, discards
that inner error and returns the original one; errors of the readiness
wait and of pid discovery are returned directly (the pid has not been
recorded at that point). -/
def startRun (c : Config) (pid0 : Option Nat) (env : StartEnv) :
    Option StartResult :=
  if stateOf env.alive pid0 = MachineState.RUNNING then
    some (StartResult.mk (Except.error Error.ProcessAlreadyRunning) pid0 false [])
  else
    match c.jailer_cfg with
    | none => none
    | some j =>
      match env.spawn with
      | Except.error e => some (StartResult.mk (Except.error e) pid0 false [])
      | Except.ok none =>
        some (StartResult.mk
          (Except.error (Error.ProcessExitedImmediatelly env.exitStatus)) pid0 false [])
      | Except.ok (some _) =>
        match waitForVersion env.probe with
        | Except.error e => some (StartResult.mk (Except.error e) pid0 false [])
        | Except.ok () =>
          match env.matching with
          | [p] =>
            match setupAndBoot c env.rest with
            | none => none
            | some (Except.error e) =>
              let fsd := forceShutdown j.mode env.alive env.killOk env.tmuxOk (some p)
              some (StartResult.mk (Except.error e) fsd.snd true [])
            | some (Except.ok t) =>
              some (StartResult.mk (Except.ok ()) (some p) false t)
          | _ => some (StartResult.mk (Except.error Error.FailedToStart) pid0 false [])

/-
Helper lemmas about path joining.
-/

/-- Joining a single relative component appends it. -/
theorem join_rel1 (p : RPath) (s : String) :
    p.join (rel1 s) = RPath.mk p.absolute (p.comps ++ [s]) := by
  simp [RPath.join, rel1]

/-- Joining the slash-stripped form of any path appends its components. -/
theorem join_strip (w p : RPath) :
    w.join p.strip_root = RPath.mk w.absolute (w.comps ++ p.comps) := by
  cases p with
  | mk abs comps => cases abs <;> simp [RPath.strip_root, RPath.join]

/-
Shared concrete fixtures used by witnesses and counterexamples.
-/

/-- Concrete jailer configuration fixture. -/
def jailerW : Jailer :=
  Jailer.mk 1000 1000 none
    (RPath.mk true ["usr", "bin", "firecracker"])
    (RPath.mk false ["jailer"])
    (RPath.mk true ["srv", "jailer"])
    (RPath.mk true ["srv", "jailer", "firecracker", "vm-w", "root"])
    JailerMode.attached

/-- Concrete root drive fixture. -/
def driveW : Drive :=
  Drive.mk "d1" false true none (RPath.mk true ["tmp", "r.ext4"])

/-- Concrete network interface fixture. -/
def ifaceW : Interface := Interface.mk "tap0" "eth0" none

/-- Concrete configuration fixture: one drive, one interface, a jailer,
no initrd, no vsock. -/
def cfgW : Config :=
  Config.mk
    (RPath.mk true ["run", "firecracker.socket"])
    none none none none
    (RPath.mk true ["srv", "jailer", "firecracker", "vm-w", "root"])
    (RPath.mk true ["tmp", "kernel"])
    none
    none
    [driveW]
    machineDefault
    (some jailerW)
    "vm-w"
    none
    [ifaceW]
    none

/-- Jailer fixture whose exec file has no filename component (the root
path). -/
def jailerNoName : Jailer := { jailerW with exec_file := RPath.mk true [] }

/-- Builder-state fixture carrying jailerNoName. -/
def cfgNoName : Config := { cfgW with jailer_cfg := some jailerNoName }

/-- Helper: the explicit result of JailerBuilder::build when the exec
file has a filename. -/
theorem jailer_build_ok (jb : JailerBuilder) (F : String)
    (hf : jb.jailer.exec_file.fileName = some F) :
    JailerBuilder.build jb = some { jb.config_builder with
      jailer_cfg := some { jb.jailer with
        workspace_dir :=
          ((jb.jailer.chroot_base_dir.join (rel1 F)).join
            (rel1 jb.config_builder.vm_id)).join (rel1 "root") } } := by
  unfold JailerBuilder.build
  rw [hf]

/-- Helper: the explicit result of Builder::build when a jailer with a
named exec file is configured. -/
theorem build_ok (b : Config) (j : Jailer) (F : String)
    (hj : b.jailer_cfg = some j) (hf : j.exec_file.fileName = some F) :
    Builder.build b = some (Except.ok { b with
      jailer_workspace_dir :=
        ((j.chroot_base_dir.join (rel1 F)).join (rel1 b.vm_id)).join
          (rel1 "root") }) := by
  simp only [Builder.build, hj]
  rw [hf]

/-- C4: for every Config built with vm_id V, exec-file basename F, chroot
base C and socket path S, the derived host_socket_path equals
C / F / V / "root" / strip_leading_slash(S) and the derived workspace
directory equals C / F / V / "root". -/
theorem c4_path_derivation (b : Config) (j : Jailer) (F : String)
    (hj : b.jailer_cfg = some j) (hf : j.exec_file.fileName = some F) :
    ∃ c, Builder.build b = some (Except.ok c) ∧
      c.jailer_workspace_dir =
        ((j.chroot_base_dir.join (rel1 F)).join (rel1 b.vm_id)).join (rel1 "root") ∧
      c.host_socket_path =
        (((j.chroot_base_dir.join (rel1 F)).join (rel1 b.vm_id)).join
          (rel1 "root")).join b.socket_path.strip_root := by
  simp only [Builder.build, hj]
  rw [hf]
  exact ⟨_, rfl, rfl, rfl⟩

/-- Witness for C4 at a concrete builder state. -/
theorem c4_witness :
    ∃ c, Builder.build cfgW = some (Except.ok c) ∧
      c.jailer_workspace_dir =
        ((jailerW.chroot_base_dir.join (rel1 "firecracker")).join
          (rel1 cfgW.vm_id)).join (rel1 "root") ∧
      c.host_socket_path =
        (((jailerW.chroot_base_dir.join (rel1 "firecracker")).join
          (rel1 cfgW.vm_id)).join (rel1 "root")).join cfgW.socket_path.strip_root :=
  c4_path_derivation cfgW jailerW "firecracker" rfl (by decide)

/-- C8: whenever the jailer exec_file of a builder state has no filename
component, the top-level build() returns InvalidJailerExecPath. -/
theorem c8_invalid_exec (b : Config) (j : Jailer)
    (hj : b.jailer_cfg = some j) (hf : j.exec_file.fileName = none) :
    Builder.build b = some (Except.error Error.InvalidJailerExecPath) := by
  simp only [Builder.build, hj]
  rw [hf]

/-- Witness for C8 at a concrete builder state whose jailer exec file is
the root path. -/
theorem c8_witness :
    Builder.build cfgNoName = some (Except.error Error.InvalidJailerExecPath) :=
  c8_invalid_exec cfgNoName jailerNoName rfl (by decide)

/-- Builder chain with two is_root_device drives, followed by the jailer
sub-builder (defaults) and the top-level build. -/
def twoRootChain : Option (Except Error Config) :=
  (JailerBuilder.build
    (Builder.jailer_cfg 1000 1000
      (DriveBuilder.build
        (DriveBuilder.is_root_device true
          (Builder.add_drive "d2" (RPath.mk true ["tmp", "b.ext4"])
            (DriveBuilder.build
              (DriveBuilder.is_root_device true
                (Builder.add_drive "d1" (RPath.mk true ["tmp", "a.ext4"])
                  (builderInit (RPath.mk true ["tmp", "kernel"]) "vm-a"))))))))).bind
    Builder.build

/-- Number of root drives of a successfully built Config, none when the
chain panicked or failed. -/
def builtRootCount : Option (Except Error Config) → Option Nat
  | some (Except.ok c) => some (c.drives.countP fun d => d.is_root_device)
  | _ => none

/-- Counterexample to C5: a builder chain with two is_root_device drives
builds successfully (the claim says the builder rejects every such
configuration). -/
theorem c5_counterexample : builtRootCount twoRootChain = some 2 := by decide

/-- C5 amended: the builder performs no root-drive validation; for every
builder state whose jailer exec file has a filename, build() succeeds and
keeps the drive list unchanged, regardless of how many drives have
is_root_device set. -/
theorem c5_amended (b : Config) (j : Jailer) (F : String)
    (hj : b.jailer_cfg = some j) (hf : j.exec_file.fileName = some F) :
    ∃ c, Builder.build b = some (Except.ok c) ∧ c.drives = b.drives := by
  simp only [Builder.build, hj]
  rw [hf]
  exact ⟨_, rfl, rfl⟩

/-- Witness for the amended C5 at a concrete builder state with two root
drives. -/
theorem c5_witness :
    ∃ c, Builder.build { cfgW with drives := [driveW, { driveW with drive_id := "d2" }] }
      = some (Except.ok c) ∧
      c.drives = ({ cfgW with drives := [driveW, { driveW with drive_id := "d2" }] } : Config).drives :=
  c5_amended _ jailerW "firecracker" rfl (by decide)

/-- C10: when vm_id V is assigned after the jailer sub-builder has run,
the stored Jailer workspace_dir keeps the directory derived from the
earlier id V0 while every Config-derived path (workspace, kernel image,
host socket) uses V, and Machine::create resolves its copy destination
directory through the stale Jailer workspace_dir. -/
theorem c10_stale_workspace (V0 V : String) (C E k : RPath) (F : String)
    (euid egid : Nat) (hf : E.fileName = some F) (hne : V ≠ V0) :
    ∃ b1 c,
      JailerBuilder.build
        (JailerBuilder.chroot_base_dir C
          (JailerBuilder.exec_file E
            (Builder.jailer_cfg euid egid (builderInit k V0)))) = some b1 ∧
      Builder.build (Builder.vm_id V b1) = some (Except.ok c) ∧
      createWorkspaceDir c = some (RPath.mk C.absolute (C.comps ++ [F, V0, "root"])) ∧
      c.jailer_workspace_dir = RPath.mk C.absolute (C.comps ++ [F, V, "root"]) ∧
      c.kernel_image_path = RPath.mk C.absolute (C.comps ++ [F, V, "root", "kernel"]) ∧
      c.host_socket_path =
        RPath.mk C.absolute (C.comps ++ [F, V, "root", "run", "firecracker.socket"]) ∧
      createWorkspaceDir c ≠ some c.jailer_workspace_dir := by
  refine ⟨_, _, jailer_build_ok _ F hf, build_ok _ _ F rfl hf, ?_, ?_, ?_, ?_, ?_⟩
  · simp [createWorkspaceDir, join_rel1, JailerBuilder.chroot_base_dir,
      JailerBuilder.exec_file, Builder.jailer_cfg, builderInit, Builder.vm_id]
  · simp [join_rel1, JailerBuilder.chroot_base_dir, JailerBuilder.exec_file,
      Builder.jailer_cfg, builderInit, Builder.vm_id]
  · simp [join_rel1, Config.kernel_image_path, JailerBuilder.chroot_base_dir,
      JailerBuilder.exec_file, Builder.jailer_cfg, builderInit, Builder.vm_id]
  · simp [join_rel1, Config.host_socket_path, RPath.strip_root, RPath.join, rel1,
      JailerBuilder.chroot_base_dir, JailerBuilder.exec_file, Builder.jailer_cfg,
      builderInit, Builder.vm_id]
  · intro hcontra
    simp [createWorkspaceDir, join_rel1, JailerBuilder.chroot_base_dir,
      JailerBuilder.exec_file, Builder.jailer_cfg, builderInit,
      Builder.vm_id] at hcontra
    exact hne hcontra.symm

/-- Witness for C10 at concrete values. -/
theorem c10_witness :
    ∃ b1 c,
      JailerBuilder.build
        (JailerBuilder.chroot_base_dir (RPath.mk true ["chroot"])
          (JailerBuilder.exec_file (RPath.mk true ["usr", "bin", "firecracker"])
            (Builder.jailer_cfg 1 1
              (builderInit (RPath.mk true ["tmp", "kernel"]) "vm-old")))) = some b1 ∧
      Builder.build (Builder.vm_id "vm-new" b1) = some (Except.ok c) ∧
      createWorkspaceDir c = some (RPath.mk true ["chroot", "firecracker", "vm-old", "root"]) ∧
      c.jailer_workspace_dir = RPath.mk true ["chroot", "firecracker", "vm-new", "root"] ∧
      c.kernel_image_path =
        RPath.mk true ["chroot", "firecracker", "vm-new", "root", "kernel"] ∧
      c.host_socket_path =
        RPath.mk true ["chroot", "firecracker", "vm-new", "root", "run", "firecracker.socket"] ∧
      createWorkspaceDir c ≠ some c.jailer_workspace_dir :=
  c10_stale_workspace "vm-old" "vm-new" (RPath.mk true ["chroot"])
    (RPath.mk true ["usr", "bin", "firecracker"]) (RPath.mk true ["tmp", "kernel"])
    "firecracker" 1 1 (by decide) (by decide)

/-- Counterexample to C6: in Tmux mode with a pid the kernel no longer
knows (alive always false), force_shutdown succeeds by killing the tmux
session instead of failing with ProcessNotRunning as the claim states. -/
theorem c6_counterexample :
    forceShutdown (JailerMode.tmux none) (fun _ => false) (fun _ => false) true (some 5)
      = (Except.ok (), none) ∧
    (forceShutdown (JailerMode.tmux none) (fun _ => false) (fun _ => false) true
      (some 5)).fst ≠ Except.error (Error.ProcessNotRunning 5) := by
  constructor
  · rfl
  · intro h
    simp [forceShutdown] at h

/-- C6 amended: force_shutdown fails with ProcessNotStarted when no pid
is tracked; in Daemon/Attached modes it fails with ProcessNotRunning when
the kernel no longer knows the pid, with ProcessNotKilled when the kill
is rejected, and on an accepted kill it clears the pid (state Shutoff, a
second call returning ProcessNotStarted); in Tmux mode it kills the tmux
session and clears the pid without consulting the process table. -/
theorem c6_amended (mode : JailerMode) (alive killOk : Nat → Bool)
    (tmuxOk : Bool) (p : Nat) :
    (forceShutdown mode alive killOk tmuxOk none
      = (Except.error Error.ProcessNotStarted, none))
    ∧ ((mode = JailerMode.attached ∨ mode = JailerMode.daemon) → alive p = false →
        forceShutdown mode alive killOk tmuxOk (some p)
          = (Except.error (Error.ProcessNotRunning p), some p))
    ∧ ((mode = JailerMode.attached ∨ mode = JailerMode.daemon) → alive p = true →
        killOk p = false →
        forceShutdown mode alive killOk tmuxOk (some p)
          = (Except.error (Error.ProcessNotKilled p), some p))
    ∧ ((mode = JailerMode.attached ∨ mode = JailerMode.daemon) → alive p = true →
        killOk p = true →
        forceShutdown mode alive killOk tmuxOk (some p) = (Except.ok (), none) ∧
        stateOf alive none = MachineState.SHUTOFF ∧
        forceShutdown mode alive killOk tmuxOk none
          = (Except.error Error.ProcessNotStarted, none))
    ∧ (∀ sn, tmuxOk = true →
        forceShutdown (JailerMode.tmux sn) alive killOk tmuxOk (some p)
          = (Except.ok (), none)) := by
  refine ⟨rfl, ?_, ?_, ?_, ?_⟩
  · rintro (rfl | rfl) ha <;> simp [forceShutdown, ha]
  · rintro (rfl | rfl) ha hk <;> simp [forceShutdown, ha, hk]
  · rintro (rfl | rfl) ha hk <;>
      exact ⟨by simp [forceShutdown, ha, hk], rfl, rfl⟩
  · intro sn ht
    simp [forceShutdown, ht]

/-- Witness for the amended C6 at concrete inputs: a successful kill in
daemon mode clears the pid. -/
theorem c6_witness :
    forceShutdown JailerMode.daemon (fun _ => true) (fun _ => true) true (some 3)
      = (Except.ok (), none) ∧
    stateOf (fun _ => true) none = MachineState.SHUTOFF ∧
    forceShutdown JailerMode.daemon (fun _ => true) (fun _ => true) true none
      = (Except.error Error.ProcessNotStarted, none) :=
  (c6_amended JailerMode.daemon (fun _ => true) (fun _ => true) true 3).2.2.2.1
    (Or.inr rfl) rfl rfl

/-- Helper: under an all-2xx REST oracle, the drive loop sends one request
per drive in order, appending the corresponding /drives paths. -/
theorem sendDrives_ok (rest : RestReq → RestResp)
    (hok : ∀ r, isSuccessCode (rest r).status = true) :
    ∀ (ds : List Drive) (t : List RestReq),
      (∀ d ∈ ds, (d.src_path.fileName).isSome = true) →
      ∃ t2, sendDrives rest t ds = Except.ok t2 ∧
        t2.map reqPath = t.map reqPath ++ ds.map (fun d => "/drives/" ++ d.drive_id) := by
  intro ds
  induction ds with
  | nil => intro t _; exact ⟨t, rfl, by simp⟩
  | cons d ds ih =>
    intro t hdr
    have hd := hdr d (List.mem_cons_self d ds)
    cases hfn : d.src_path.fileName with
    | none => rw [hfn] at hd; simp at hd
    | some f =>
      have hst := hok (RestReq.drive d.drive_id { d with src_path := rel1 f })
      obtain ⟨t2, h2, h3⟩ := ih (t ++ [RestReq.drive d.drive_id { d with src_path := rel1 f }])
        (fun x hx => hdr x (List.mem_cons_of_mem d hx))
      refine ⟨t2, ?_, ?_⟩
      · unfold sendDrives
        rw [hfn]
        simp [sendOne, hst]
        exact h2
      · rw [h3]
        simp [reqPath]

/-- C9: for every Config with an empty network-interface sequence, start
reaches the unguarded network_interfaces[0] index (a panic, modelled as
none) once spawn, the readiness wait, pid discovery and the preceding
REST steps succeed; and the public builder accepts a configuration with
zero interfaces without any validation. -/
theorem c9_empty_ifaces_panic (c : Config) (j : Jailer) (cid p : Nat)
    (env : StartEnv) (bs : BootSrc)
    (hn : c.network_interfaces = [])
    (hj : c.jailer_cfg = some j)
    (hsp : env.spawn = Except.ok (some cid))
    (hw : waitForVersion env.probe = Except.ok ())
    (hm : env.matching = [p])
    (hok : ∀ r, isSuccessCode (env.rest r).status = true)
    (hdr : ∀ d ∈ c.drives, (d.src_path.fileName).isSome = true)
    (hbs : c.boot_source = Except.ok bs) :
    startRun c none env = none ∧
    ∀ (k : RPath) (fid : String) (euid egid : Nat),
      ∃ b1 cb,
        JailerBuilder.build (Builder.jailer_cfg euid egid (builderInit k fid)) = some b1 ∧
        Builder.build b1 = some (Except.ok cb) ∧
        cb.network_interfaces = [] := by
  constructor
  · have hsetup : setupAndBoot c env.rest = none := by
      obtain ⟨t2, h2, _⟩ := sendDrives_ok env.rest hok c.drives
        [RestReq.machineConfig c.machine_cfg, RestReq.bootSource bs] hdr
      unfold setupAndBoot runSetup
      simp [sendOne, hok, hbs, hn]
      rw [h2]
    unfold startRun
    simp only [stateOf, hj, hsp, hw, hm, hsetup]
    rfl
  · intro k fid euid egid
    exact ⟨_, _, jailer_build_ok _ "firecracker" (by rfl),
      build_ok _ _ "firecracker" rfl (by rfl), rfl⟩

/-- Witness for C9 at concrete inputs. -/
theorem c9_witness :
    startRun { cfgW with network_interfaces := [] } none
      (StartEnv.mk (Except.ok (some 7)) 0 (fun _ => ProbeOutcome.status 200) [9]
        (fun _ => RestResp.mk 204 none) (fun _ => false) (fun _ => true) true) = none :=
  (c9_empty_ifaces_panic { cfgW with network_interfaces := [] } jailerW 7 9
    (StartEnv.mk (Except.ok (some 7)) 0 (fun _ => ProbeOutcome.status 200) [9]
      (fun _ => RestResp.mk 204 none) (fun _ => false) (fun _ => true) true)
    (BootSrc.mk (RPath.mk true ["kernel"]) none none)
    rfl rfl rfl (by decide) rfl (fun _ => rfl)
    (by intro d hd; cases hd with
        | head => decide
        | tail _ h => cases h)
    rfl).1

/-- Helper: under an all-2xx REST oracle, the full setup sequence sends
machine-config, boot-source, one request per drive in order, the first
network interface, and vsock when configured. -/
theorem runSetup_ok (c : Config) (rest : RestReq → RestResp) (bs : BootSrc)
    (i : Interface) (is2 : List Interface)
    (hok : ∀ r, isSuccessCode (rest r).status = true)
    (hdr : ∀ d ∈ c.drives, (d.src_path.fileName).isSome = true)
    (hbs : c.boot_source = Except.ok bs)
    (hn : c.network_interfaces = i :: is2) :
    ∃ t, runSetup c rest = some (Except.ok t) ∧
      t.map reqPath = ["/machine-config", "/boot-source"]
        ++ c.drives.map (fun d => "/drives/" ++ d.drive_id)
        ++ ["/network-interfaces/" ++ i.vm_if_name]
        ++ (match c.vsock_cfg with | some _ => ["/vsock"] | none => []) := by
  obtain ⟨t2, h2, h3⟩ := sendDrives_ok rest hok c.drives
    [RestReq.machineConfig c.machine_cfg, RestReq.bootSource bs] hdr
  cases hv : c.vsock_cfg with
  | none =>
    unfold runSetup
    simp [sendOne, hok, hbs, hn, hv]
    rw [h2]
    refine ⟨t2 ++ [RestReq.netIface i.vm_if_name i.host_if_name], rfl, ?_⟩
    simp [h3, reqPath]
  | some v =>
    unfold runSetup
    simp [sendOne, hok, hbs, hn, hv]
    rw [h2]
    refine ⟨t2 ++ [RestReq.netIface i.vm_if_name i.host_if_name]
      ++ [RestReq.vsockReq v], ?_, ?_⟩
    · simp [sendOne, hok]
    · simp [h3, reqPath]

/-- C3 amended: during a successful start on a fixed Config the REST
request sequence is exactly machine-config, boot-source, every drive in
insertion order, the FIRST network interface only, vsock when configured,
then the InstanceStart action — each request issued strictly after the
previous one (the trace is built sequentially, every step awaiting the
previous result). -/
theorem c3_request_order (c : Config) (j : Jailer) (cid p : Nat)
    (env : StartEnv) (bs : BootSrc) (i : Interface) (is2 : List Interface)
    (hj : c.jailer_cfg = some j)
    (hsp : env.spawn = Except.ok (some cid))
    (hw : waitForVersion env.probe = Except.ok ())
    (hm : env.matching = [p])
    (hok : ∀ r, isSuccessCode (env.rest r).status = true)
    (hdr : ∀ d ∈ c.drives, (d.src_path.fileName).isSome = true)
    (hbs : c.boot_source = Except.ok bs)
    (hn : c.network_interfaces = i :: is2) :
    ∃ t, startRun c none env = some (StartResult.mk (Except.ok ()) (some p) false t) ∧
      t.map reqPath = ["/machine-config", "/boot-source"]
        ++ c.drives.map (fun d => "/drives/" ++ d.drive_id)
        ++ ["/network-interfaces/" ++ i.vm_if_name]
        ++ (match c.vsock_cfg with | some _ => ["/vsock"] | none => [])
        ++ ["/actions"] := by
  obtain ⟨t, ht, hmap⟩ := runSetup_ok c env.rest bs i is2 hok hdr hbs hn
  have hsb : setupAndBoot c env.rest
      = some (Except.ok (t ++ [RestReq.action Action.instanceStart])) := by
    unfold setupAndBoot
    rw [ht]
    simp [sendOne, hok]
  refine ⟨t ++ [RestReq.action Action.instanceStart], ?_, ?_⟩
  · unfold startRun
    simp only [stateOf, hj, hsp, hw, hm, hsb]
    rfl
  · simp [hmap, reqPath]

/-- Request-path sequence asserted by claim C3 (spec P4): one
network-interfaces request PER configured interface, in insertion
order. -/
def claimedReqPaths (c : Config) : List String :=
  ["/machine-config", "/boot-source"]
    ++ c.drives.map (fun d => "/drives/" ++ d.drive_id)
    ++ c.network_interfaces.map (fun i => "/network-interfaces/" ++ i.vm_if_name)
    ++ (match c.vsock_cfg with | some _ => ["/vsock"] | none => [])
    ++ ["/actions"]

/-- Configuration with two network interfaces. -/
def cfg2if : Config :=
  { cfgW with network_interfaces := [ifaceW, Interface.mk "tap1" "eth1" none] }

/-- Environment in which every external interaction succeeds. -/
def envOk : StartEnv :=
  StartEnv.mk (Except.ok (some 7)) 0 (fun _ => ProbeOutcome.status 200) [9]
    (fun _ => RestResp.mk 204 none) (fun _ => false) (fun _ => true) true

/-- Counterexample to C3: on a Config with two network interfaces a
successful start sends a request for the first interface only, so the
issued sequence differs from the claimed per-interface sequence. -/
theorem c3_counterexample :
    (startRun cfg2if none envOk).map (fun r => (r.res, r.trace.map reqPath))
      = some (Except.ok (),
        ["/machine-config", "/boot-source", "/drives/d1",
          "/network-interfaces/eth0", "/actions"]) ∧
    claimedReqPaths cfg2if
      = ["/machine-config", "/boot-source", "/drives/d1",
          "/network-interfaces/eth0", "/network-interfaces/eth1", "/actions"] ∧
    (startRun cfg2if none envOk).map (fun r => r.trace.map reqPath)
      ≠ some (claimedReqPaths cfg2if) := by
  refine ⟨by decide, by decide, by decide⟩

/-- Witness for C3 at concrete inputs. -/
theorem c3_witness :
    ∃ t, startRun cfgW none envOk = some (StartResult.mk (Except.ok ()) (some 9) false t) ∧
      t.map reqPath = ["/machine-config", "/boot-source"]
        ++ cfgW.drives.map (fun d => "/drives/" ++ d.drive_id)
        ++ ["/network-interfaces/" ++ ifaceW.vm_if_name]
        ++ (match cfgW.vsock_cfg with | some _ => ["/vsock"] | none => [])
        ++ ["/actions"] :=
  c3_request_order cfgW jailerW 7 9 envOk
    (BootSrc.mk (RPath.mk true ["kernel"]) none none) ifaceW []
    rfl rfl rfl rfl (fun _ => rfl)
    (by intro d hd; cases hd with
        | head => decide
        | tail _ h => cases h)
    rfl rfl

/-- Helper: after a force_shutdown attempt on a tracked pid, the observed
state is Shutoff provided the attempt succeeded or the process is no
longer alive. -/
theorem forceShutdown_state (mode : JailerMode) (alive killOk : Nat → Bool)
    (tmuxOk : Bool) (p : Nat)
    (h : (forceShutdown mode alive killOk tmuxOk (some p)).fst = Except.ok ()
      ∨ alive p = false) :
    stateOf alive (forceShutdown mode alive killOk tmuxOk (some p)).snd
      = MachineState.SHUTOFF := by
  cases mode <;> cases ha : alive p <;> cases hk : killOk p <;> cases ht : tmuxOk <;>
    simp [forceShutdown, stateOf, ha, hk, ht] at h ⊢

/-- Environment whose readiness probes always answer 503 (never 2xx). -/
def envProbe503 : StartEnv :=
  StartEnv.mk (Except.ok (some 7)) 0 (fun _ => ProbeOutcome.status 503) [9]
    (fun _ => RestResp.mk 204 none) (fun _ => false) (fun _ => true) true

/-- Environment whose first readiness probe fails at the transport level. -/
def envTransport : StartEnv :=
  StartEnv.mk (Except.ok (some 7)) 0 (fun _ => ProbeOutcome.err Error.Hyper) [9]
    (fun _ => RestResp.mk 204 none) (fun _ => false) (fun _ => true) true

/-- Environment in which the boot-source request is answered 400, the
process stays alive and kill signals are accepted; the probe succeeds. -/
def envBoot400 : StartEnv :=
  StartEnv.mk (Except.ok (some 7)) 0 (fun _ => ProbeOutcome.status 200) [9]
    (fun r => match r with
      | RestReq.bootSource _ => RestResp.mk 400 none
      | _ => RestResp.mk 204 none)
    (fun _ => false) (fun _ => true) true

/-- Counterexample to C1: on a socket-readiness timeout (an error after
the jailer was spawned) start returns JailerStartTimedOut directly — the
result records that force_shutdown was NOT called, contradicting the
claim that every post-spawn error triggers force_shutdown. -/
theorem c1_counterexample :
    startRun cfgW none envProbe503
      = some (StartResult.mk (Except.error Error.JailerStartTimedOut) none false []) := by
  decide

/-- C1 amended: errors of the readiness wait are returned directly with
no force_shutdown and the pid unchanged; a pid-discovery mismatch returns
FailedToStart likewise; errors of the REST configuration/boot phase
trigger force_shutdown, whose own error is discarded, the original error
is returned, and the observed state is Shutoff provided the
force_shutdown succeeded or the process is no longer alive. -/
theorem c1_error_policy (c : Config) (j : Jailer) (pid0 : Option Nat)
    (cid p : Nat) (e : Error) (env : StartEnv) :
    (stateOf env.alive pid0 = MachineState.SHUTOFF →
      c.jailer_cfg = some j →
      env.spawn = Except.ok (some cid) →
      waitForVersion env.probe = Except.error e →
      startRun c pid0 env = some (StartResult.mk (Except.error e) pid0 false []))
    ∧
    (stateOf env.alive pid0 = MachineState.SHUTOFF →
      c.jailer_cfg = some j →
      env.spawn = Except.ok (some cid) →
      waitForVersion env.probe = Except.ok () →
      env.matching.length ≠ 1 →
      startRun c pid0 env
        = some (StartResult.mk (Except.error Error.FailedToStart) pid0 false []))
    ∧
    (stateOf env.alive pid0 = MachineState.SHUTOFF →
      c.jailer_cfg = some j →
      env.spawn = Except.ok (some cid) →
      waitForVersion env.probe = Except.ok () →
      env.matching = [p] →
      setupAndBoot c env.rest = some (Except.error e) →
      startRun c pid0 env
        = some (StartResult.mk (Except.error e)
            (forceShutdown j.mode env.alive env.killOk env.tmuxOk (some p)).snd
            true []) ∧
      (((forceShutdown j.mode env.alive env.killOk env.tmuxOk (some p)).fst
          = Except.ok () ∨ env.alive p = false) →
        stateOf env.alive
          (forceShutdown j.mode env.alive env.killOk env.tmuxOk (some p)).snd
          = MachineState.SHUTOFF)) := by
  refine ⟨?_, ?_, ?_⟩
  · intro h1 hj hsp hw
    unfold startRun
    simp only [h1, hj, hsp, hw]
    rfl
  · intro h1 hj hsp hw hml
    unfold startRun
    simp only [h1, hj, hsp, hw]
    match hmm : env.matching with
    | [] => rfl
    | [a] => rw [hmm] at hml; simp at hml
    | a :: b :: l => rfl
  · intro h1 hj hsp hw hm hsb
    constructor
    · unfold startRun
      simp only [h1, hj, hsp, hw, hm, hsb]
      rfl
    · exact forceShutdown_state j.mode env.alive env.killOk env.tmuxOk p

/-- Witness for the amended C1: a 400 on boot-source yields the original
FirecrackerAPIError, force_shutdown is called (its ProcessNotRunning
failure is discarded), and the state is Shutoff since the process is no
longer alive. -/
theorem c1_witness :
    startRun cfgW none envBoot400
      = some (StartResult.mk (Except.error (Error.FirecrackerAPIError 400 none))
          (forceShutdown jailerW.mode envBoot400.alive envBoot400.killOk
            envBoot400.tmuxOk (some 9)).snd
          true []) ∧
    stateOf envBoot400.alive
      (forceShutdown jailerW.mode envBoot400.alive envBoot400.killOk
        envBoot400.tmuxOk (some 9)).snd = MachineState.SHUTOFF := by
  have h := (c1_error_policy cfgW jailerW none 7 9
    (Error.FirecrackerAPIError 400 none) envBoot400).2.2
    rfl rfl rfl (by decide) rfl (by decide)
  exact ⟨h.1, h.2 (Or.inr rfl)⟩

/-- C2 (code evaluated at the failing input): a readiness probe that
fails at the transport level — as every probe does while the socket file
does not exist yet — aborts start immediately with that error instead of
polling on at 100 ms until the 10 s JailerStartTimedOut the claim
describes; no second probe is attempted. -/
theorem c2_transport_error_aborts :
    startRun cfgW none envTransport
      = some (StartResult.mk (Except.error Error.Hyper) none false []) ∧
    Error.Hyper ≠ Error.JailerStartTimedOut := by
  refine ⟨by decide, by decide⟩

/-
Lemmas for the idempotence of Machine::create (claim C7).
-/

/-- A copy step preserves every existing file. -/
theorem hasFile_of_copy (srcP dest pth : RPath) (fs fs2 : FS)
    (h : copyIfAbsent srcP dest fs = Except.ok fs2)
    (hp : fs.hasFile pth = true) : fs2.hasFile pth = true := by
  unfold copyIfAbsent at h
  by_cases hd : fs.hasFile dest = true
  · rw [if_pos hd] at h
    cases h
    exact hp
  · rw [if_neg hd] at h
    cases hsrc : findFile fs.files srcP with
    | none => rw [hsrc] at h; cases h
    | some content =>
      rw [hsrc] at h
      cases h
      simp only [FS.hasFile, findFile]
      split
      · rfl
      · exact hp

/-- A successful copy step leaves the destination present. -/
theorem copy_gives_dest (srcP dest : RPath) (fs fs2 : FS)
    (h : copyIfAbsent srcP dest fs = Except.ok fs2) : fs2.hasFile dest = true := by
  unfold copyIfAbsent at h
  by_cases hd : fs.hasFile dest = true
  · rw [if_pos hd] at h
    cases h
    exact hd
  · rw [if_neg hd] at h
    cases hsrc : findFile fs.files srcP with
    | none => rw [hsrc] at h; cases h
    | some content =>
      rw [hsrc] at h
      cases h
      simp [FS.hasFile, findFile]

/-- A copy whose destination already exists is a no-op. -/
theorem copy_skip (srcP dest : RPath) (fs : FS) (hd : fs.hasFile dest = true) :
    copyIfAbsent srcP dest fs = Except.ok fs := by
  unfold copyIfAbsent
  rw [if_pos hd]

/-- A copy step never changes the directory set. -/
theorem copy_dirs (srcP dest : RPath) (fs fs2 : FS)
    (h : copyIfAbsent srcP dest fs = Except.ok fs2) : fs2.dirs = fs.dirs := by
  unfold copyIfAbsent at h
  by_cases hd : fs.hasFile dest = true
  · rw [if_pos hd] at h
    cases h
    rfl
  · rw [if_neg hd] at h
    cases hsrc : findFile fs.files srcP with
    | none => rw [hsrc] at h; cases h
    | some content =>
      rw [hsrc] at h
      cases h
      rfl

/-- Directory creation does not touch files. -/
theorem hasFile_ensureDir (d pth : RPath) (fs : FS) :
    (ensureDir d fs).hasFile pth = fs.hasFile pth := by
  unfold ensureDir
  split <;> rfl

/-- Directory creation records the directory. -/
theorem mem_ensureDir_self (d : RPath) (fs : FS) : d ∈ (ensureDir d fs).dirs := by
  unfold ensureDir
  split
  · assumption
  · exact List.mem_cons_self d fs.dirs

/-- Directory creation preserves recorded directories. -/
theorem mem_ensureDir_mono (d x : RPath) (fs : FS) (h : x ∈ fs.dirs) :
    x ∈ (ensureDir d fs).dirs := by
  unfold ensureDir
  split
  · exact h
  · exact List.mem_cons_of_mem d h

/-- Creating an already-recorded directory is a no-op. -/
theorem ensureDir_skip (d : RPath) (fs : FS) (h : d ∈ fs.dirs) :
    ensureDir d fs = fs := by
  unfold ensureDir
  rw [if_pos h]

/-- The initrd step preserves every existing file. -/
theorem initrd_mono (c : Config) (pth : RPath) (fs fs2 : FS)
    (h : copyInitrd c fs = Except.ok fs2) (hp : fs.hasFile pth = true) :
    fs2.hasFile pth = true := by
  cases hsrc : c.src_initrd_path with
  | none =>
    simp only [copyInitrd, hsrc, Except.ok.injEq] at h
    rw [h] at hp
    exact hp
  | some s =>
    cases hfn : s.fileName with
    | none => exact absurd h (by simp [copyInitrd, hsrc, hfn])
    | some f =>
      simp only [copyInitrd, hsrc, hfn] at h
      exact hasFile_of_copy _ _ _ _ _ h hp

/-- The initrd step never changes the directory set. -/
theorem initrd_dirs (c : Config) (fs fs2 : FS)
    (h : copyInitrd c fs = Except.ok fs2) : fs2.dirs = fs.dirs := by
  cases hsrc : c.src_initrd_path with
  | none =>
    simp only [copyInitrd, hsrc, Except.ok.injEq] at h
    rw [h]
  | some s =>
    cases hfn : s.fileName with
    | none => exact absurd h (by simp [copyInitrd, hsrc, hfn])
    | some f =>
      simp only [copyInitrd, hsrc, hfn] at h
      exact copy_dirs _ _ _ _ h

/-- After a successful initrd step, either no initrd is configured or its
destination exists. -/
theorem initrd_dest (c : Config) (fs fs2 : FS)
    (h : copyInitrd c fs = Except.ok fs2) :
    c.src_initrd_path = none ∨
      ∃ s f, c.src_initrd_path = some s ∧ s.fileName = some f ∧
        fs2.hasFile (c.jailer_workspace_dir.join (rel1 f)) = true := by
  cases hsrc : c.src_initrd_path with
  | none => exact Or.inl rfl
  | some s =>
    cases hfn : s.fileName with
    | none => exact absurd h (by simp [copyInitrd, hsrc, hfn])
    | some f =>
      simp only [copyInitrd, hsrc, hfn] at h
      exact Or.inr ⟨s, f, rfl, hfn, copy_gives_dest _ _ _ _ h⟩

/-- An initrd step whose destination already exists (or which is not
configured) is a no-op. -/
theorem initrd_skip (c : Config) (fs : FS)
    (h : c.src_initrd_path = none ∨
      ∃ s f, c.src_initrd_path = some s ∧ s.fileName = some f ∧
        fs.hasFile (c.jailer_workspace_dir.join (rel1 f)) = true) :
    copyInitrd c fs = Except.ok fs := by
  cases h with
  | inl hn => simp [copyInitrd, hn]
  | inr hex =>
    obtain ⟨s, f, hs, hf, hd⟩ := hex
    simp only [copyInitrd, hs, hf]
    exact copy_skip _ _ _ hd

/-- The drive loop preserves every existing file. -/
theorem drives_mono (ws pth : RPath) :
    ∀ (ds : List Drive) (fs fs2 : FS),
      copyDrives ws ds fs = Except.ok fs2 → fs.hasFile pth = true →
      fs2.hasFile pth = true := by
  intro ds
  induction ds with
  | nil =>
    intro fs fs2 h hp
    cases h
    exact hp
  | cons d ds ih =>
    intro fs fs2 h hp
    cases hfn : d.src_path.fileName with
    | none => exact absurd h (by simp [copyDrives, hfn])
    | some f =>
      simp only [copyDrives, hfn] at h
      cases hcp : copyIfAbsent d.src_path (ws.join (rel1 f)) fs with
      | error e => exact absurd h (by simp [hcp])
      | ok fsx =>
        simp only [hcp] at h
        exact ih fsx fs2 h (hasFile_of_copy _ _ _ _ _ hcp hp)

/-- The drive loop never changes the directory set. -/
theorem drives_dirs (ws : RPath) :
    ∀ (ds : List Drive) (fs fs2 : FS),
      copyDrives ws ds fs = Except.ok fs2 → fs2.dirs = fs.dirs := by
  intro ds
  induction ds with
  | nil =>
    intro fs fs2 h
    cases h
    rfl
  | cons d ds ih =>
    intro fs fs2 h
    cases hfn : d.src_path.fileName with
    | none => exact absurd h (by simp [copyDrives, hfn])
    | some f =>
      simp only [copyDrives, hfn] at h
      cases hcp : copyIfAbsent d.src_path (ws.join (rel1 f)) fs with
      | error e => exact absurd h (by simp [hcp])
      | ok fsx =>
        simp only [hcp] at h
        rw [ih fsx fs2 h, copy_dirs _ _ _ _ hcp]

/-- After a successful drive loop, every drive has a filename and its
destination exists. -/
theorem drives_dest (ws : RPath) :
    ∀ (ds : List Drive) (fs fs2 : FS),
      copyDrives ws ds fs = Except.ok fs2 →
      ∀ d ∈ ds, ∃ f, d.src_path.fileName = some f ∧
        fs2.hasFile (ws.join (rel1 f)) = true := by
  intro ds
  induction ds with
  | nil =>
    intro fs fs2 _ d hd
    cases hd
  | cons d0 ds ih =>
    intro fs fs2 h d hd
    cases hfn : d0.src_path.fileName with
    | none => exact absurd h (by simp [copyDrives, hfn])
    | some f =>
      simp only [copyDrives, hfn] at h
      cases hcp : copyIfAbsent d0.src_path (ws.join (rel1 f)) fs with
      | error e => exact absurd h (by simp [hcp])
      | ok fsx =>
        simp only [hcp] at h
        cases hd with
        | head =>
          exact ⟨f, hfn, drives_mono ws _ ds fsx fs2 h
            (copy_gives_dest _ _ _ _ hcp)⟩
        | tail _ hmem => exact ih fsx fs2 h d hmem

/-- A drive loop whose destinations all exist is a no-op. -/
theorem drives_skip (ws : RPath) :
    ∀ (ds : List Drive) (fs : FS),
      (∀ d ∈ ds, ∃ f, d.src_path.fileName = some f ∧
        fs.hasFile (ws.join (rel1 f)) = true) →
      copyDrives ws ds fs = Except.ok fs := by
  intro ds
  induction ds with
  | nil => intro fs _; rfl
  | cons d ds ih =>
    intro fs hall
    obtain ⟨f, hfn, hd⟩ := hall d (List.mem_cons_self d ds)
    simp only [copyDrives, hfn]
    rw [copy_skip _ _ _ hd]
    exact ih fs (fun x hx => hall x (List.mem_cons_of_mem d hx))

/-- The socket-directory step does not touch files. -/
theorem hasFile_socketDir (c : Config) (pth : RPath) (fs : FS) :
    (ensureSocketDir c fs).hasFile pth = fs.hasFile pth := by
  unfold ensureSocketDir
  split
  · exact hasFile_ensureDir _ _ _
  · rfl

/-- The socket-directory step preserves recorded directories. -/
theorem mem_socketDir_mono (c : Config) (x : RPath) (fs : FS)
    (h : x ∈ fs.dirs) : x ∈ (ensureSocketDir c fs).dirs := by
  unfold ensureSocketDir
  split
  · exact mem_ensureDir_mono _ _ _ h
  · exact h

/-- The socket-directory step is a no-op on its own output shape: applied
when the parent (if any) is already recorded. -/
theorem socketDir_skip (c : Config) (fs : FS)
    (h : ∀ d, c.host_socket_path.parent = some d → d ∈ fs.dirs) :
    ensureSocketDir c fs = fs := by
  unfold ensureSocketDir
  cases hp : c.host_socket_path.parent with
  | none => rfl
  | some d => exact ensureDir_skip d fs (h d hp)

/-- After the socket-directory step, the socket parent (if any) is
recorded. -/
theorem socketDir_mem (c : Config) (fs : FS) :
    ∀ d, c.host_socket_path.parent = some d → d ∈ (ensureSocketDir c fs).dirs := by
  intro d hp
  unfold ensureSocketDir
  rw [hp]
  exact mem_ensureDir_self d fs

/-- C7: Machine::create is idempotent on the workspace — a second create
with the same Config on the filesystem produced by a successful first
create changes nothing, because every file copy is skip-if-exists and
directory creation tolerates existing directories. -/
theorem c7_create_idempotent (c : Config) (fs fs2 : FS)
    (h : createFS c fs = some (Except.ok fs2)) :
    createFS c fs2 = some (Except.ok fs2) := by
  unfold createFS at h ⊢
  cases hws : createWorkspaceDir c with
  | none => rw [hws] at h; cases h
  | some ws =>
    rw [hws] at h
    have h2 : createSteps c ws fs = Except.ok fs2 := Option.some.inj h
    cases hA : copyIfAbsent c.src_kernel_image_path c.kernel_image_path
        (ensureDir ws fs) with
    | error e => exact absurd h2 (by simp [createSteps, hA])
    | ok fsA =>
      simp only [createSteps, hA] at h2
      cases hB : copyInitrd c fsA with
      | error e => exact absurd h2 (by simp [hB])
      | ok fsB =>
        simp only [hB] at h2
        cases hC : copyDrives ws c.drives fsB with
        | error e => exact absurd h2 (by simp [hC])
        | ok fsC =>
          simp only [hC, Except.ok.injEq] at h2
          subst h2
          have hwsdir : ws ∈ (ensureSocketDir c fsC).dirs := by
            apply mem_socketDir_mono
            rw [drives_dirs ws c.drives fsB fsC hC, initrd_dirs c fsA fsB hB,
              copy_dirs _ _ _ _ hA]
            exact mem_ensureDir_self ws fs
          have hkd : (ensureSocketDir c fsC).hasFile c.kernel_image_path = true := by
            rw [hasFile_socketDir]
            exact drives_mono ws _ c.drives fsB fsC hC
              (initrd_mono c _ fsA fsB hB (copy_gives_dest _ _ _ _ hA))
          have hinit : c.src_initrd_path = none ∨
              ∃ s f, c.src_initrd_path = some s ∧ s.fileName = some f ∧
                (ensureSocketDir c fsC).hasFile
                  (c.jailer_workspace_dir.join (rel1 f)) = true := by
            cases initrd_dest c fsA fsB hB with
            | inl hn => exact Or.inl hn
            | inr hex =>
              obtain ⟨s, f, hs, hf, hd⟩ := hex
              refine Or.inr ⟨s, f, hs, hf, ?_⟩
              rw [hasFile_socketDir]
              exact drives_mono ws _ c.drives fsB fsC hC hd
          have hdrv : ∀ d ∈ c.drives, ∃ f, d.src_path.fileName = some f ∧
              (ensureSocketDir c fsC).hasFile (ws.join (rel1 f)) = true := by
            intro d hd
            obtain ⟨f, hf, hdest⟩ := drives_dest ws c.drives fsB fsC hC d hd
            refine ⟨f, hf, ?_⟩
            rw [hasFile_socketDir]
            exact hdest
          have hsock : ∀ d, c.host_socket_path.parent = some d →
              d ∈ (ensureSocketDir c fsC).dirs := socketDir_mem c fsC
          have hstep : createSteps c ws (ensureSocketDir c fsC)
              = Except.ok (ensureSocketDir c fsC) := by
            rw [createSteps, ensureDir_skip ws _ hwsdir, copy_skip _ _ _ hkd]
            simp only [initrd_skip c _ hinit, drives_skip ws c.drives _ hdrv,
              socketDir_skip c _ hsock]
          show some (createSteps c ws (ensureSocketDir c fsC))
            = some (Except.ok (ensureSocketDir c fsC))
          rw [hstep]

/-- Source filesystem fixture for the create witness: the kernel and the
one drive image exist, the workspace does not. -/
def fs0W : FS :=
  FS.mk []
    [(RPath.mk true ["tmp", "kernel"], "K"), (RPath.mk true ["tmp", "r.ext4"], "D")]

/-- The filesystem after one successful create of cfgW on fs0W. -/
def fs1W : FS :=
  FS.mk
    [RPath.mk true ["srv", "jailer", "firecracker", "vm-w", "root", "run"],
      RPath.mk true ["srv", "jailer", "firecracker", "vm-w", "root"]]
    [(RPath.mk true ["srv", "jailer", "firecracker", "vm-w", "root", "r.ext4"], "D"),
      (RPath.mk true ["srv", "jailer", "firecracker", "vm-w", "root", "kernel"], "K"),
      (RPath.mk true ["tmp", "kernel"], "K"),
      (RPath.mk true ["tmp", "r.ext4"], "D")]

/-- Witness for C7 at concrete inputs: a first create copies kernel and
drive, a second create leaves the filesystem unchanged. -/
theorem c7_witness :
    createFS cfgW fs0W = some (Except.ok fs1W) ∧
    createFS cfgW fs1W = some (Except.ok fs1W) :=
  ⟨by decide, c7_create_idempotent cfgW fs0W fs1W (by decide)⟩

end Firec
